import Mathlib

set_option maxRecDepth 100000

/-!
# Verification of the stargate-bridge client SDK

A shallow embedding of `stargate_bridge/client.py` (and the supporting
`types.py` / `exceptions.py`).  Pure computations (slippage arithmetic,
transaction preparation, private-key resolution) are translated directly into
Lean functions.  Network-bound operations (chain RPC, quote API, signing) are
external collaborators in the source, so they enter the model as explicit
oracle parameters; the methods that call them become functions from oracles to
results, and every outbound call is recorded in an event trace so that
"invoked exactly once", "never invoked", and "zero network calls" become
statements about the trace.

Python `float` arithmetic (`1 - slippage_tolerance`, `gas_estimate * 1.2`) is
CPython's IEEE-754 binary64 arithmetic.  It is modelled exactly over `ℚ`: a
binary64 value is the rational it denotes, and each operation rounds its exact
rational result to the nearest representable value (ties to even) via `fl`.
The inputs appearing in this development live well inside the normal range, so
subnormals, overflow and NaN never arise.
-/

namespace StargateBridge

/-- Exceptions that the client can raise: the three SDK taxonomy entries from
`exceptions.py`, plus the Python built-ins `ValueError` and `KeyError` that
`client.py` can also raise (`__init__` raises `ValueError`; a missing dict key
raises `KeyError`). -/
inductive PyError where
  | stargateAPIError (msg : String)
  | stargateTransactionError (msg : String)
  | stargateConfigError (msg : String)
  | valueError (msg : String)
  | keyError (key : String)
deriving Repr, DecidableEq

/-- Whether an error is the SDK's configuration-error taxonomy entry
(`StargateConfigError` in `exceptions.py`). -/
def PyError.isConfigError : PyError → Bool
  | .stargateConfigError _ => true
  | _ => false

/-! ## Python string/int helpers

`client.py` converts decimal numeral strings to integers with `int(...)` and
back with `str(...)`.  The model covers the canonical decimal numerals
(optionally `-`-signed digit strings) that actually flow through the client;
`int()` on such a string is positional base-10 evaluation. -/

/-- Python truthiness of a string: the empty string is falsy. -/
def pyTruthy (s : String) : Bool := s ≠ ""

/-- Positional base-10 value of a list of digit characters. -/
def digitsToNat (l : List Char) : ℕ :=
  l.foldl (fun acc c => acc * 10 + (c.toNat - 48)) 0

/-- Python `int(s)` on a canonical decimal numeral string. -/
def strToInt (s : String) : ℤ :=
  match s.data with
  | '-' :: rest => -(digitsToNat rest : ℤ)
  | l => (digitsToNat l : ℤ)

/-- One decimal digit as a character. -/
def digitChar (d : ℕ) : Char := Char.ofNat (48 + d)

/-- Digits of a natural number, most significant first (fuel-bounded; 40
digits is ample for every quantity the client handles). -/
def natToDigits : ℕ → ℕ → List Char → List Char
  | 0, _, acc => acc
  | f + 1, n, acc => if n = 0 then acc else natToDigits f (n / 10) (digitChar (n % 10) :: acc)

/-- Python `str(n)` for a natural number. -/
def natToStr (n : ℕ) : String :=
  if n = 0 then "0" else String.mk (natToDigits 40 n [])

/-- Python `str(i)` for an integer. -/
def intToStr (i : ℤ) : String :=
  if i < 0 then "-" ++ natToStr i.natAbs else natToStr i.natAbs

/-! ## IEEE-754 binary64 model

CPython floats are IEEE-754 binary64.  A finite binary64 value is a rational
`m * 2^(e-52)` with `|m| < 2^53`; `fl q` rounds the exact rational `q` to the
nearest such value, ties to even, for inputs in the normal range (all inputs
in this development are).  The arithmetic below is phrased with the
unbundled `Rat` primitives (`Rat.divInt`, `Rat.blt`, `Rat.floor`, …) so that
every concrete instance evaluates by `decide`; `qmul`/`qsub` are just exact
rational multiplication and subtraction. -/

/-- The rational `i`. -/
def qOfInt (i : ℤ) : ℚ := Rat.divInt i 1

/-- Exact rational multiplication (same value as `Rat.mul`). -/
def qmul (a b : ℚ) : ℚ := Rat.divInt (a.num * b.num) ((a.den * b.den : ℕ) : ℤ)

/-- Exact rational subtraction (same value as `Rat.sub`). -/
def qsub (a b : ℚ) : ℚ :=
  Rat.divInt (a.num * (b.den : ℤ) - b.num * (a.den : ℤ)) ((a.den * b.den : ℕ) : ℤ)

/-- The rational `2 ^ e` for an integer exponent. -/
def pow2 (e : ℤ) : ℚ :=
  if 0 ≤ e then Rat.divInt ((2 ^ e.toNat : ℕ) : ℤ) 1
  else Rat.divInt 1 ((2 ^ (-e).toNat : ℕ) : ℤ)

/-- `⌊log₂ n⌋` for a positive natural, fuel-bounded halving (1100 units of
fuel cover the full binary64 exponent range with room to spare). -/
def log2fuel : ℕ → ℕ → ℕ
  | 0, _ => 0
  | f + 1, n => if n ≤ 1 then 0 else log2fuel f (n / 2) + 1

/-- `⌊log₂ q⌋` for a positive rational, via the bit lengths of numerator and
denominator (which bracket it to within one) and a correction step. -/
def flog2 (q : ℚ) : ℤ :=
  let e0 : ℤ := (log2fuel 1100 q.num.natAbs : ℤ) - (log2fuel 1100 q.den : ℤ)
  if Rat.blt q (pow2 e0) then e0 - 1
  else if Rat.blt q (pow2 (e0 + 1)) then e0 else e0 + 1

/-- Round a rational to the nearest integer, ties to even. -/
def roundHalfEven (q : ℚ) : ℤ :=
  let f := Rat.floor q
  let r := qsub q (qOfInt f)
  if Rat.blt r (Rat.divInt 1 2) then f
  else if Rat.blt (Rat.divInt 1 2) r then f + 1
  else if f % 2 = 0 then f else f + 1

/-- Round a rational to the nearest IEEE-754 binary64 value (round to nearest,
ties to even), expressed as the exact rational that value denotes.  Faithful
on the normal range; this development never leaves it. -/
def fl (q : ℚ) : ℚ :=
  if q.num = 0 then 0
  else
    let aq : ℚ := if q.num < 0 then qmul (qOfInt (-1)) q else q
    let e : ℤ := flog2 aq
    let m : ℤ := roundHalfEven (qmul aq (pow2 (52 - e)))
    let m' : ℤ := if q.num < 0 then -m else m
    qmul (qOfInt m') (pow2 (e - 52))

/-- Python `int(x)` on a float: truncation toward zero. -/
def pyTrunc (q : ℚ) : ℤ := if q.num < 0 then Rat.ceil q else Rat.floor q

/-! ## Data model (`types.py` and the JSON shapes `client.py` consumes) -/

/-- `types.py` `TransactionData`: destination, payload, and native value
(a decimal string, defaulting to `"0"`). -/
structure TransactionData where
  «to» : String
  data : String
  value : String := "0"
deriving Repr, DecidableEq

/-- `types.py` `QuoteParams`: the fully populated transfer intent sent to the
quote API. -/
structure QuoteParams where
  src_token : String
  dst_token : String
  src_address : String
  dst_address : String
  src_chain_key : String
  dst_chain_key : String
  src_amount : String
  dst_amount_min : String
deriving Repr, DecidableEq

/-- The transaction dictionary built by `_prepare_transaction`.  `value` is
optional because the `'value'` key is only inserted when the descriptor's
value is truthy and not `"0"`; `gas` is `ℤ` because the estimation path
assigns `int(gas_estimate * 1.2)`. -/
structure PreparedTransaction where
  «to» : String
  data : String
  nonce : ℕ
  gas : ℤ
  gasPrice : ℕ
  value : Option ℤ := none
deriving Repr, DecidableEq

/-- The JSON `transaction` object inside a route step; every field may be
absent (the decode in `execute_route` is permissive). -/
structure TxInfo where
  «to» : Option String := none
  data : Option String := none
  value : Option String := none
deriving Repr, DecidableEq

/-- One step of a route: a JSON object whose `transaction` key may be
absent. -/
structure Step where
  transaction : Option TxInfo := none
deriving Repr, DecidableEq

/-- A route returned by the quote API: a JSON object whose `steps` key may be
absent. -/
structure RouteData where
  steps : Option (List Step) := none
deriving Repr, DecidableEq

/-- The quote API response body: a JSON object whose `quotes` key may be
absent. -/
structure QuotesData where
  quotes : Option (List RouteData) := none
deriving Repr, DecidableEq

/-- A confirmed transaction receipt (`execute_route` reads its `status`). -/
structure Receipt where
  status : ℕ
deriving Repr, DecidableEq

/-! ## `_prepare_transaction` and `execute_transaction` (client.py 106-164)

The chain RPC node and the signer are external collaborators; a `ChainRPC`
value fixes the outcome of each of their operations for one
`execute_transaction` call.  An `.error msg` result models the underlying
call raising an exception whose string form is `msg`.  Every outbound call
is recorded as an `RpcEvent`. -/

/-- Outcomes of the chain-RPC / signing collaborators for one
`execute_transaction` call. -/
structure ChainRPC where
  get_transaction_count : Except String ℕ
  gas_price : ℕ
  estimate_gas : PreparedTransaction → Except String ℕ
  sign_transaction : PreparedTransaction → String → Except String (List ℕ)
  send_raw_transaction : List ℕ → Except String String

/-- Network calls made by `execute_transaction`, in order. -/
inductive RpcEvent where
  | getTransactionCount
  | estimateGas (transaction : PreparedTransaction)
  | signTransaction (transaction : PreparedTransaction)
  | sendRawTransaction (raw : List ℕ)
deriving Repr, DecidableEq

/-- `client.py` `_prepare_transaction` (lines 106-129): fixed default gas
limit 300000, network gas price, and the `'value'` key only when the
descriptor's value is truthy and not `"0"`. -/
def _prepare_transaction (gas_price : ℕ) (tx_data : TransactionData) (nonce : ℕ) :
    PreparedTransaction :=
  let transaction : PreparedTransaction :=
    { «to» := tx_data.to, data := tx_data.data, nonce := nonce, gas := 300000,
      gasPrice := gas_price }
  if pyTruthy tx_data.value && tx_data.value != "0" then
    { transaction with value := some (strToInt tx_data.value) }
  else transaction

/-- `int(gas_estimate * 1.2)` (line 151): the estimate is converted to a
binary64, multiplied by the binary64 nearest `1.2`, rounded, and truncated. -/
def gasWithBuffer (gas_estimate : ℕ) : ℤ :=
  pyTrunc (fl (qmul (fl (qOfInt (gas_estimate : ℤ))) (fl (Rat.divInt 6 5))))

/-- `client.py` `execute_transaction` (lines 131-164): nonce fetch, prepare,
advisory gas estimation (failure keeps the default), sign, broadcast.  Any
failure other than estimation is wrapped as a transaction error. -/
def execute_transaction (rpc : ChainRPC) (private_key : String)
    (tx_data : TransactionData) : Except PyError String × List RpcEvent :=
  match rpc.get_transaction_count with
  | .error e =>
      (.error (.stargateTransactionError ("Failed to execute transaction: " ++ e)),
       [.getTransactionCount])
  | .ok nonce =>
    let prepared := _prepare_transaction rpc.gas_price tx_data nonce
    let transaction :=
      match rpc.estimate_gas prepared with
      | .ok gas_estimate => { prepared with gas := gasWithBuffer gas_estimate }
      | .error _ => prepared
    match rpc.sign_transaction transaction private_key with
    | .error e =>
        (.error (.stargateTransactionError ("Failed to execute transaction: " ++ e)),
         [.getTransactionCount, .estimateGas prepared, .signTransaction transaction])
    | .ok signed =>
      match rpc.send_raw_transaction signed with
      | .error e =>
          (.error (.stargateTransactionError ("Failed to execute transaction: " ++ e)),
           [.getTransactionCount, .estimateGas prepared, .signTransaction transaction,
            .sendRawTransaction signed])
      | .ok tx_hash =>
          (.ok tx_hash,
           [.getTransactionCount, .estimateGas prepared, .signTransaction transaction,
            .sendRawTransaction signed])

/-! ## `execute_route` (client.py 183-222) and `transfer` (client.py 224-281)

`execute_route` calls the methods `execute_transaction` and
`wait_for_transaction` once per step; their outcomes depend on ambient
network state, so the i-th step's pair of calls is fixed by the i-th
`StepOracle`.  Events record each outbound call: this makes "invoked exactly
once per step", "never invoked", and "zero network calls" statements about
the returned trace (all chain traffic of a step happens inside its
`execCall`/`waitCall`). -/

/-- Outcome of one step's `execute_transaction` and `wait_for_transaction`
calls, as observed by `execute_route`. -/
structure StepOracle where
  exec : TransactionData → Except PyError String
  wait : String → Except PyError Receipt

/-- Calls issued by `transfer` / `execute_route`, in order. -/
inductive TEvent where
  | getQuotesCall (params : QuoteParams)
  | execCall (tx_data : TransactionData)
  | waitCall (tx_hash : String)
deriving Repr, DecidableEq

/-- Step decode (lines 202-207): `step.get('transaction', {})` with
per-field defaults `''`, `''`, `'0'`. -/
def extractTxData (step : Step) : TransactionData :=
  let tx_info := step.transaction.getD {}
  { «to» := tx_info.to.getD "", data := tx_info.data.getD "",
    value := tx_info.value.getD "0" }

/-- The per-step loop of `execute_route` (lines 196-222): execute the step's
transaction, wait for its confirmation, accumulate the hash; the first
failure aborts the loop and propagates.  The oracle shifts by one per
step. -/
def executeSteps (oracle : ℕ → StepOracle) :
    List Step → Except PyError (List String) × List TEvent
  | [] => (.ok [], [])
  | step :: rest =>
    let tx_data := extractTxData step
    match (oracle 0).exec tx_data with
    | .error e => (.error e, [.execCall tx_data])
    | .ok tx_hash =>
      match (oracle 0).wait tx_hash with
      | .error e => (.error e, [.execCall tx_data, .waitCall tx_hash])
      | .ok _receipt =>
        let rec_result := executeSteps (fun n => oracle (n + 1)) rest
        (match rec_result.1 with
         | .ok hashes => .ok (tx_hash :: hashes)
         | .error e => .error e,
         .execCall tx_data :: .waitCall tx_hash :: rec_result.2)

/-- `client.py` `execute_route` (lines 183-222): a falsy `steps` entry
(absent key or empty list) is a transaction error raised before any step
runs; otherwise the steps execute strictly in order. -/
def execute_route (oracle : ℕ → StepOracle) (route_data : RouteData) :
    Except PyError (List String) × List TEvent :=
  match route_data.steps with
  | none => (.error (.stargateTransactionError "No steps found in route data"), [])
  | some [] => (.error (.stargateTransactionError "No steps found in route data"), [])
  | some steps => executeSteps oracle steps

/-- Python `a or b` where `a` is an optional string: `b` when `a` is `None`
or empty. -/
def pyOrStr (a : Option String) (b : String) : String :=
  match a with
  | none => b
  | some s => if s = "" then b else s

/-- Line 256: `dst_amount_min = str(int(int(amount) * (1 - slippage_tolerance)))`
with CPython float semantics: `1 - slippage_tolerance` rounds to binary64,
the amount converts to binary64, the product rounds to binary64, and `int`
truncates. -/
def dst_amount_min_calc (amount : String) (slippage_tolerance : ℚ) : String :=
  intToStr (pyTrunc (fl (qmul (fl (qOfInt (strToInt amount)))
    (fl (qsub (qOfInt 1) slippage_tolerance)))))

/-- `client.py` `transfer` (lines 224-281): address defaulting, slippage
computation, quote fetch, first-route selection (the f-string on line 278
indexes `selected_route['steps']`, raising `KeyError` when the key is
absent), then route execution.  `wallet_address` is `self.account.address`;
`slippage_tolerance` is the binary64 value of the caller's float, defaulting
to the one nearest `0.05`. -/
def transfer (wallet_address : String)
    (get_quotes : QuoteParams → Except PyError QuotesData)
    (oracle : ℕ → StepOracle)
    (src_token dst_token src_chain_key dst_chain_key amount : String)
    (src_address : Option String := none) (dst_address : Option String := none)
    (slippage_tolerance : ℚ := fl (Rat.divInt 1 20)) :
    Except PyError (List String) × List TEvent :=
  let src_address := pyOrStr src_address wallet_address
  let dst_address := pyOrStr dst_address wallet_address
  let dst_amount_min := dst_amount_min_calc amount slippage_tolerance
  let quote_params : QuoteParams :=
    { src_token := src_token, dst_token := dst_token, src_address := src_address,
      dst_address := dst_address, src_chain_key := src_chain_key,
      dst_chain_key := dst_chain_key, src_amount := amount,
      dst_amount_min := dst_amount_min }
  match get_quotes quote_params with
  | .error e => (.error e, [.getQuotesCall quote_params])
  | .ok quotes_data =>
    match quotes_data.quotes with
    | none =>
        (.error (.stargateAPIError "No quotes available for this transfer"),
         [.getQuotesCall quote_params])
    | some [] =>
        (.error (.stargateAPIError "No quotes available for this transfer"),
         [.getQuotesCall quote_params])
    | some (selected_route :: _) =>
      match selected_route.steps with
      | none => (.error (.keyError "steps"), [.getQuotesCall quote_params])
      | some _ =>
        let route_result := execute_route oracle selected_route
        (route_result.1, .getQuotesCall quote_params :: route_result.2)

/-! ## `StargateClient.__init__` (client.py 21-51) -/

/-- Whether a string starts with the two characters `0x`. -/
def startsWith0x (s : String) : Bool :=
  match s.data with
  | '0' :: 'x' :: _ => true
  | _ => false

/-- Private-key resolution in `__init__` (lines 38-44): `private_key or
os.getenv('EVM_PRIVATE_KEY')`, a `ValueError` when the result is falsy, and
`0x`-prefix normalization.  This runs before the Web3 provider, the account
object, or the HTTP client are constructed, so a raised error precedes any
network activity.  `env` is the value of `EVM_PRIVATE_KEY` (`none` when
unset). -/
def init_private_key (private_key : Option String) (env : Option String) :
    Except PyError String :=
  let pk : Option String :=
    match private_key with
    | some s => if s = "" then env else some s
    | none => env
  match pk with
  | none =>
      .error (.valueError
        "Private key must be provided or set in EVM_PRIVATE_KEY environment variable")
  | some s =>
    if s = "" then
      .error (.valueError
        "Private key must be provided or set in EVM_PRIVATE_KEY environment variable")
    else if startsWith0x s then .ok s
    else .ok ("0x" ++ s)

/-! ## Specification-side formulas (from `spec.md`, for comparison) -/

/-- Modelled from the spec (§3, §8): `dst_amount_min = floor(amount * (1 −
slippage_tolerance))` under exact integer/rational semantics. -/
def dst_amount_min_spec (amount : String) (slippage_tolerance : ℚ) : String :=
  intToStr (Rat.floor (qmul (qOfInt (strToInt amount))
    (qsub (qOfInt 1) slippage_tolerance)))

/-- Modelled from the spec (§4.2): gas limit `ceil(estimate * 1.2)` under
exact rational semantics. -/
def gas_limit_spec (gas_estimate : ℕ) : ℤ :=
  Rat.ceil (qmul (qOfInt (gas_estimate : ℤ)) (Rat.divInt 6 5))

/-! ## Observation helpers for traces -/

/-- Whether an error belongs to the SDK's three-entry taxonomy
(`exceptions.py`), as opposed to a Python built-in. -/
def PyError.isStargateError : PyError → Bool
  | .stargateAPIError _ => true
  | .stargateTransactionError _ => true
  | .stargateConfigError _ => true
  | _ => false

/-- Whether an event is a quote-API call. -/
def TEvent.isGetQuotesCall : TEvent → Bool
  | .getQuotesCall _ => true
  | _ => false

/-- Whether an event is an `execute_transaction` call (a step submission). -/
def TEvent.isExecCall : TEvent → Bool
  | .execCall _ => true
  | _ => false

/-- The trace of a fully successful route execution: one
submit/confirm pair per step, in step order. -/
def routeTrace (steps : List Step) (hashes : List String) : List TEvent :=
  (steps.zip hashes).flatMap fun p => [.execCall (extractTxData p.1), .waitCall p.2]

/-- The quote parameters `transfer` builds from its arguments
(client.py lines 251-268). -/
def transferQuoteParams (wallet_address : String)
    (src_token dst_token src_chain_key dst_chain_key amount : String)
    (src_address dst_address : Option String) (slippage_tolerance : ℚ) : QuoteParams :=
  { src_token := src_token, dst_token := dst_token,
    src_address := pyOrStr src_address wallet_address,
    dst_address := pyOrStr dst_address wallet_address,
    src_chain_key := src_chain_key, dst_chain_key := dst_chain_key,
    src_amount := amount, dst_amount_min := dst_amount_min_calc amount slippage_tolerance }

/-! ## Concrete sample data (for instantiating the theorems) -/

/-- A concrete transaction descriptor (value defaults to `"0"`). -/
def sampleTxData : TransactionData := { «to» := "0xrouter", data := "0xcalldata" }

/-- A chain RPC whose gas estimation fails and whose other operations
succeed. -/
def sampleRpcEstimateFail : ChainRPC :=
  { get_transaction_count := .ok 42,
    gas_price := 20000000000,
    estimate_gas := fun _ => .error "executionReverted",
    sign_transaction := fun _ _ => .ok [1, 2, 3],
    send_raw_transaction := fun _ => .ok "0xabcdef" }

/-- A chain RPC whose gas estimation succeeds with 21001 units. -/
def sampleRpcGas : ChainRPC :=
  { get_transaction_count := .ok 42,
    gas_price := 20000000000,
    estimate_gas := fun _ => .ok 21001,
    sign_transaction := fun _ _ => .ok [1, 2, 3],
    send_raw_transaction := fun _ => .ok "0xabcdef" }

/-- A concrete route-step transaction object. -/
def sampleTx1 : TxInfo :=
  { «to» := some "0xrouter", data := some "0xcalldata1", value := some "0" }

/-- A second concrete route-step transaction object, with a native value. -/
def sampleTx2 : TxInfo :=
  { «to» := some "0xrouter", data := some "0xcalldata2",
    value := some "1000000000000000000" }

/-- A concrete two-step route. -/
def sampleRoute : RouteData :=
  { steps := some [{ transaction := some sampleTx1 }, { transaction := some sampleTx2 }] }

/-- A step oracle for which every execute and wait succeeds. -/
def sampleOracle : ℕ → StepOracle := fun i =>
  { exec := fun _ => .ok (if i = 0 then "0xhash1" else "0xhash2"),
    wait := fun _ => .ok { status := 1 } }

/-- A quote fetcher returning a syntactically valid response with zero
routes. -/
def sampleQuotesEmpty : QuoteParams → Except PyError QuotesData :=
  fun _ => .ok { quotes := some [] }

/-- A quote fetcher returning one route whose `steps` key is absent. -/
def sampleQuotesNoSteps : QuoteParams → Except PyError QuotesData :=
  fun _ => .ok { quotes := some [{ steps := none }] }

/-- A quote fetcher returning one single-step route. -/
def sampleQuotesOneRoute : QuoteParams → Except PyError QuotesData :=
  fun _ => .ok { quotes := some [{ steps := some [{ transaction := some sampleTx1 }] }] }

/-! ## Shared lemmas -/

/-- Whatever the collaborators do, the first outbound call of `transfer` is
the quote request, carrying exactly the parameters built from the transfer
arguments. -/
theorem transfer_trace_head (wallet_address : String)
    (get_quotes : QuoteParams → Except PyError QuotesData) (oracle : ℕ → StepOracle)
    (src_token dst_token src_chain_key dst_chain_key amount : String)
    (src_address dst_address : Option String) (slippage_tolerance : ℚ) :
    (transfer wallet_address get_quotes oracle src_token dst_token src_chain_key
        dst_chain_key amount src_address dst_address slippage_tolerance).2.head? =
      some (.getQuotesCall (transferQuoteParams wallet_address src_token dst_token
        src_chain_key dst_chain_key amount src_address dst_address slippage_tolerance)) := by
  unfold transfer transferQuoteParams
  dsimp only
  split
  · rfl
  · split
    · rfl
    · rfl
    · split
      · rfl
      · rfl

/-- `executeSteps` never issues a quote-API call. -/
theorem executeSteps_no_quotes_call (steps : List Step) :
    ∀ oracle : ℕ → StepOracle,
      ((executeSteps oracle steps).2.countP (fun e => e.isGetQuotesCall)) = 0 := by
  induction steps with
  | nil => intro oracle; rfl
  | cons step rest ih =>
    intro oracle
    unfold executeSteps
    dsimp only
    split
    · rfl
    · split
      · rfl
      · simpa [List.countP_cons, TEvent.isGetQuotesCall] using ih fun n => oracle (n + 1)

/-- `execute_route` never issues a quote-API call either. -/
theorem execute_route_no_quotes_call (oracle : ℕ → StepOracle) (route_data : RouteData) :
    ((execute_route oracle route_data).2.countP (fun e => e.isGetQuotesCall)) = 0 := by
  unfold execute_route
  split
  · rfl
  · rfl
  · exact executeSteps_no_quotes_call _ oracle

/-- Success case of the step loop: if every step's execute and wait succeed,
the loop returns the hashes in step order and the trace is one
submit/confirm pair per step. -/
theorem executeSteps_all_success (steps : List Step) :
    ∀ (oracle : ℕ → StepOracle) (hashes : List String),
      hashes.length = steps.length →
      (∀ i (hi : i < steps.length) (hh : i < hashes.length),
        (oracle i).exec (extractTxData (steps.get ⟨i, hi⟩)) = .ok (hashes.get ⟨i, hh⟩) ∧
        ∃ r, (oracle i).wait (hashes.get ⟨i, hh⟩) = .ok r) →
      executeSteps oracle steps = (.ok hashes, routeTrace steps hashes) := by
  induction steps with
  | nil =>
    intro oracle hashes hlen _
    rcases hashes with _ | ⟨h, hs⟩
    · rfl
    · simp at hlen
  | cons step rest ih =>
    intro oracle hashes hlen hall
    rcases hashes with _ | ⟨h, hs⟩
    · simp at hlen
    · obtain ⟨hex, r, hw⟩ := hall 0 (by simp) (by simp)
      unfold executeSteps
      dsimp only
      simp only [List.get] at hex hw
      have ihr := ih (fun n => oracle (n + 1)) hs (by simpa using hlen)
        (fun i hi hh => hall (i + 1) (by simpa using hi) (by simpa using hh))
      simp only [hex, hw, ihr]
      simp [routeTrace]

/-- Failure of the execute of step `k` (all earlier steps succeeding): the
loop aborts with that error, its trace ending at the failing submission. -/
theorem executeSteps_exec_fail (steps : List Step) :
    ∀ (oracle : ℕ → StepOracle) (hashes : List String) (k : ℕ)
      (err : PyError) (hk : k < steps.length),
      hashes.length = k →
      (∀ i (hi : i < k) (hh : i < hashes.length),
        (oracle i).exec (extractTxData (steps.get ⟨i, Nat.lt_trans hi hk⟩)) =
            .ok (hashes.get ⟨i, hh⟩) ∧
        ∃ r, (oracle i).wait (hashes.get ⟨i, hh⟩) = .ok r) →
      (oracle k).exec (extractTxData (steps.get ⟨k, hk⟩)) = .error err →
      executeSteps oracle steps =
        (.error err, routeTrace (steps.take k) hashes ++
          [.execCall (extractTxData (steps.get ⟨k, hk⟩))]) := by
  induction steps with
  | nil => intro _ _ k _ hk; exact absurd hk (by simp)
  | cons step rest ih =>
    intro oracle hashes k err hk hlen hall hfail
    rcases k with _ | k
    · rcases hashes with _ | ⟨h, hs⟩
      · unfold executeSteps
        dsimp only
        simp only [List.get] at hfail
        simp only [hfail]
        simp [routeTrace]
      · simp at hlen
    · rcases hashes with _ | ⟨h, hs⟩
      · simp at hlen
      · obtain ⟨hex, r, hw⟩ := hall 0 (by omega) (by simp)
        unfold executeSteps
        dsimp only
        simp only [List.get] at hex hw
        have ihr := ih (fun n => oracle (n + 1)) hs k err (by simpa using hk)
          (by simpa using hlen)
          (fun i hi hh => hall (i + 1) (by omega) (by simpa using hh))
          (by simpa using hfail)
        simp only [hex, hw, ihr]
        simp [routeTrace]

/-- Failure of the wait of step `k` (its execute and all earlier steps
succeeding): the loop aborts with that error, its trace ending at the
failing confirmation. -/
theorem executeSteps_wait_fail (steps : List Step) :
    ∀ (oracle : ℕ → StepOracle) (hashes : List String) (k : ℕ) (h : String)
      (err : PyError) (hk : k < steps.length),
      hashes.length = k →
      (∀ i (hi : i < k) (hh : i < hashes.length),
        (oracle i).exec (extractTxData (steps.get ⟨i, Nat.lt_trans hi hk⟩)) =
            .ok (hashes.get ⟨i, hh⟩) ∧
        ∃ r, (oracle i).wait (hashes.get ⟨i, hh⟩) = .ok r) →
      (oracle k).exec (extractTxData (steps.get ⟨k, hk⟩)) = .ok h →
      (oracle k).wait h = .error err →
      executeSteps oracle steps =
        (.error err, routeTrace (steps.take k) hashes ++
          [.execCall (extractTxData (steps.get ⟨k, hk⟩)), .waitCall h]) := by
  induction steps with
  | nil => intro _ _ k _ _ hk; exact absurd hk (by simp)
  | cons step rest ih =>
    intro oracle hashes k h err hk hlen hall hexk hwk
    rcases k with _ | k
    · rcases hashes with _ | ⟨h', hs⟩
      · unfold executeSteps
        dsimp only
        simp only [List.get] at hexk
        simp only [hexk, hwk]
        simp [routeTrace]
      · simp at hlen
    · rcases hashes with _ | ⟨h', hs⟩
      · simp at hlen
      · obtain ⟨hex, r, hw⟩ := hall 0 (by omega) (by simp)
        unfold executeSteps
        dsimp only
        simp only [List.get] at hex hw
        have ihr := ih (fun n => oracle (n + 1)) hs k h err (by simpa using hk)
          (by simpa using hlen)
          (fun i hi hh => hall (i + 1) (by omega) (by simpa using hh))
          (by simpa using hexk) hwk
        simp only [hex, hw, ihr]
        simp [routeTrace]


/-! ## Claims -/

/-- C1: on a route whose step list has `N ≥ 1` steps, if every step's
underlying execute and wait succeed then `execute_route` returns exactly the
`N` transaction identifiers (`hashes`, one per step) in step order, with the
trace showing exactly one submit/confirm pair per step; and if the execute
(resp. the wait) of some step fails, all earlier steps succeeding, the route
aborts immediately with that step's error and the trace ends at the failing
call — no further step is submitted. -/
theorem execute_route_step_sequencing :
    (∀ (oracle : ℕ → StepOracle) (steps : List Step) (hashes : List String),
      steps ≠ [] → hashes.length = steps.length →
      (∀ i (hi : i < steps.length) (hh : i < hashes.length),
        (oracle i).exec (extractTxData (steps.get ⟨i, hi⟩)) = .ok (hashes.get ⟨i, hh⟩) ∧
        ∃ r, (oracle i).wait (hashes.get ⟨i, hh⟩) = .ok r) →
      execute_route oracle { steps := some steps } = (.ok hashes, routeTrace steps hashes)) ∧
    (∀ (oracle : ℕ → StepOracle) (steps : List Step) (hashes : List String) (k : ℕ)
      (err : PyError) (hk : k < steps.length),
      hashes.length = k →
      (∀ i (hi : i < k) (hh : i < hashes.length),
        (oracle i).exec (extractTxData (steps.get ⟨i, Nat.lt_trans hi hk⟩)) =
            .ok (hashes.get ⟨i, hh⟩) ∧
        ∃ r, (oracle i).wait (hashes.get ⟨i, hh⟩) = .ok r) →
      (oracle k).exec (extractTxData (steps.get ⟨k, hk⟩)) = .error err →
      execute_route oracle { steps := some steps } =
        (.error err, routeTrace (steps.take k) hashes ++
          [.execCall (extractTxData (steps.get ⟨k, hk⟩))])) ∧
    (∀ (oracle : ℕ → StepOracle) (steps : List Step) (hashes : List String) (k : ℕ)
      (txh : String) (err : PyError) (hk : k < steps.length),
      hashes.length = k →
      (∀ i (hi : i < k) (hh : i < hashes.length),
        (oracle i).exec (extractTxData (steps.get ⟨i, Nat.lt_trans hi hk⟩)) =
            .ok (hashes.get ⟨i, hh⟩) ∧
        ∃ r, (oracle i).wait (hashes.get ⟨i, hh⟩) = .ok r) →
      (oracle k).exec (extractTxData (steps.get ⟨k, hk⟩)) = .ok txh →
      (oracle k).wait txh = .error err →
      execute_route oracle { steps := some steps } =
        (.error err, routeTrace (steps.take k) hashes ++
          [.execCall (extractTxData (steps.get ⟨k, hk⟩)), .waitCall txh])) := by
  refine ⟨?_, ?_, ?_⟩
  · intro oracle steps hashes hne hlen hall
    cases steps with
    | nil => exact absurd rfl hne
    | cons s ss => exact executeSteps_all_success (s :: ss) oracle hashes hlen hall
  · intro oracle steps hashes k err hk hlen hall hfail
    cases steps with
    | nil => exact absurd hk (by simp)
    | cons s ss => exact executeSteps_exec_fail (s :: ss) oracle hashes k err hk hlen hall hfail
  · intro oracle steps hashes k txh err hk hlen hall hexk hwk
    cases steps with
    | nil => exact absurd hk (by simp)
    | cons s ss =>
      exact executeSteps_wait_fail (s :: ss) oracle hashes k txh err hk hlen hall hexk hwk

/-- Witness for C1: the success clause at a concrete two-step route. -/
theorem execute_route_step_sequencing_witness :
    execute_route sampleOracle sampleRoute =
      (.ok ["0xhash1", "0xhash2"],
        routeTrace [{ transaction := some sampleTx1 }, { transaction := some sampleTx2 }]
          ["0xhash1", "0xhash2"]) :=
  execute_route_step_sequencing.1 sampleOracle
    [{ transaction := some sampleTx1 }, { transaction := some sampleTx2 }]
    ["0xhash1", "0xhash2"] (by decide) (by decide)
    (fun i hi hh => by
      match i, hi with
      | 0, _ => exact ⟨rfl, ⟨{ status := 1 }, rfl⟩⟩
      | 1, _ => exact ⟨rfl, ⟨{ status := 1 }, rfl⟩⟩
      | n + 2, hi => exact absurd hi (by simp))

/-- C5: an empty step list — the `steps` entry absent or the empty list —
makes `execute_route` fail with the "no steps" transaction error and an
empty trace: no step is ever submitted or awaited, so no chain traffic
(nonce fetch, gas query, broadcast, receipt poll, all of which happen inside
those calls) occurs. -/
theorem execute_route_empty_steps (oracle : ℕ → StepOracle) (route_data : RouteData)
    (h : route_data.steps = none ∨ route_data.steps = some []) :
    execute_route oracle route_data =
      (.error (.stargateTransactionError "No steps found in route data"), []) := by
  obtain ⟨s⟩ := route_data
  rcases h with h | h <;> simp only [RouteData.mk.injEq] at h <;> subst h <;> rfl

/-- Witness for C5 at the concrete empty route. -/
theorem execute_route_empty_steps_witness :
    execute_route sampleOracle { steps := some [] } =
      (.error (.stargateTransactionError "No steps found in route data"), []) :=
  execute_route_empty_steps sampleOracle { steps := some [] } (Or.inr rfl)

/-- C4: gas estimation is advisory.  If estimation raises, the step does not
fail: the transaction proceeds to signing and broadcast with the fixed
default gas limit 300000 and completes successfully when the remaining
operations succeed. -/
theorem execute_transaction_estimate_failure_default_gas
    (rpc : ChainRPC) (private_key : String) (tx_data : TransactionData)
    (nonce : ℕ) (msg : String) (signed : List ℕ) (tx_hash : String)
    (hn : rpc.get_transaction_count = .ok nonce)
    (he : rpc.estimate_gas (_prepare_transaction rpc.gas_price tx_data nonce) = .error msg)
    (hs : rpc.sign_transaction (_prepare_transaction rpc.gas_price tx_data nonce)
        private_key = .ok signed)
    (hb : rpc.send_raw_transaction signed = .ok tx_hash) :
    execute_transaction rpc private_key tx_data =
      (.ok tx_hash,
        [.getTransactionCount,
         .estimateGas (_prepare_transaction rpc.gas_price tx_data nonce),
         .signTransaction (_prepare_transaction rpc.gas_price tx_data nonce),
         .sendRawTransaction signed]) ∧
    (_prepare_transaction rpc.gas_price tx_data nonce).gas = 300000 := by
  constructor
  · unfold execute_transaction
    dsimp only
    simp only [hn]
    simp only [he]
    simp only [hs]
    simp only [hb]
  · unfold _prepare_transaction
    dsimp only
    split <;> rfl

/-- Witness for C4 at a concrete failing estimator. -/
theorem execute_transaction_estimate_failure_default_gas_witness :
    execute_transaction sampleRpcEstimateFail "0xkey" sampleTxData =
      (.ok "0xabcdef",
        [.getTransactionCount,
         .estimateGas (_prepare_transaction sampleRpcEstimateFail.gas_price sampleTxData 42),
         .signTransaction (_prepare_transaction sampleRpcEstimateFail.gas_price sampleTxData 42),
         .sendRawTransaction [1, 2, 3]]) ∧
    (_prepare_transaction sampleRpcEstimateFail.gas_price sampleTxData 42).gas = 300000 :=
  execute_transaction_estimate_failure_default_gas sampleRpcEstimateFail "0xkey" sampleTxData
    42 "executionReverted" [1, 2, 3] "0xabcdef" rfl rfl rfl rfl

/-- C3 (amended): when gas estimation succeeds with estimate `E`, the
transaction handed to the signer (the third call of the trace) carries gas
`int(E * 1.2)` computed in binary64 floating-point arithmetic
(`gasWithBuffer`), which truncates the rounded product rather than taking
the exact `ceil(E * 1.2)`; the two can differ (see the counterexample). -/
theorem execute_transaction_gas_buffer_float
    (rpc : ChainRPC) (private_key : String) (tx_data : TransactionData)
    (nonce E : ℕ)
    (hn : rpc.get_transaction_count = .ok nonce)
    (he : rpc.estimate_gas (_prepare_transaction rpc.gas_price tx_data nonce) = .ok E) :
    (execute_transaction rpc private_key tx_data).2.get? 2 =
      some (.signTransaction
        { _prepare_transaction rpc.gas_price tx_data nonce with gas := gasWithBuffer E }) := by
  unfold execute_transaction
  dsimp only
  simp only [hn]
  simp only [he]
  split
  · rfl
  · split <;> rfl

/-- Witness for C3 (amended) at the concrete estimator returning 21001. -/
theorem execute_transaction_gas_buffer_float_witness :
    (execute_transaction sampleRpcGas "0xkey" sampleTxData).2.get? 2 =
      some (.signTransaction
        { _prepare_transaction sampleRpcGas.gas_price sampleTxData 42 with
            gas := gasWithBuffer 21001 }) :=
  execute_transaction_gas_buffer_float sampleRpcGas "0xkey" sampleTxData 42 21001 rfl rfl

/-- C3 counterexample: with estimate 21001 the transaction handed to the
signer carries gas 25201 — `int(21001 * 1.2)` under binary64 — whereas
`ceil(21001 * 1.2) = 25202`: the claimed formula fails at this input. -/
theorem execute_transaction_gas_ceil_counterexample :
    (execute_transaction sampleRpcGas "0xkey" sampleTxData).2.get? 2 =
      some (.signTransaction
        { «to» := "0xrouter", data := "0xcalldata", nonce := 42,
          gas := 25201, gasPrice := 20000000000 }) ∧
    gas_limit_spec 21001 = 25202 ∧ (25201 : ℤ) ≠ 25202 :=
  ⟨by decide, by decide, by decide⟩

/-- C7: the prepared transaction omits the `value` key entirely when the
descriptor's value is absent/falsy or the string `"0"`, and carries the
parsed integer when the value is a numeral denoting a non-zero amount. -/
theorem prepare_transaction_value_field (gas_price : ℕ) (tx_data : TransactionData)
    (nonce : ℕ) :
    ((tx_data.value = "" ∨ tx_data.value = "0") →
      (_prepare_transaction gas_price tx_data nonce).value = none) ∧
    (strToInt tx_data.value ≠ 0 →
      (_prepare_transaction gas_price tx_data nonce).value = some (strToInt tx_data.value)) := by
  constructor
  · intro h
    unfold _prepare_transaction
    rcases h with h | h <;> rw [h] <;> rfl
  · intro h
    have h1 : tx_data.value ≠ "" := fun he => h (by rw [he]; rfl)
    have h2 : tx_data.value ≠ "0" := fun he => h (by rw [he]; rfl)
    unfold _prepare_transaction
    dsimp only
    rw [if_pos]
    simp [pyTruthy, h1, bne_iff_ne, h2]

/-- Witness for C7: value `"1000000000000000000"` is included as the integer
10^18. -/
theorem prepare_transaction_value_field_witness :
    (_prepare_transaction 20000000000
        { «to» := "0xrouter", data := "0xcalldata", value := "1000000000000000000" }
        42).value = some (strToInt "1000000000000000000") ∧
    strToInt "1000000000000000000" = 1000000000000000000 :=
  ⟨(prepare_transaction_value_field 20000000000
      { «to» := "0xrouter", data := "0xcalldata", value := "1000000000000000000" } 42).2
      (by decide), by decide⟩

/-- C6: when the quote fetch succeeds but carries zero routes (a `quotes`
entry that is absent or the empty list), `transfer` fails with the "no
quotes available" API error and its trace holds the quote call alone — the
executor is never invoked; and when at least one route is returned (whose
`steps` key is present), the first candidate route is selected and the
result is exactly that of executing it. -/
theorem transfer_no_quotes_and_first_route
    (wallet_address : String) (get_quotes : QuoteParams → Except PyError QuotesData)
    (oracle : ℕ → StepOracle)
    (src_token dst_token src_chain_key dst_chain_key amount : String)
    (src_address dst_address : Option String) (slippage_tolerance : ℚ)
    (qd : QuotesData) (hgq : ∀ p, get_quotes p = .ok qd) :
    (qd.quotes = none ∨ qd.quotes = some [] →
      ∃ qp : QuoteParams,
        transfer wallet_address get_quotes oracle src_token dst_token src_chain_key
            dst_chain_key amount src_address dst_address slippage_tolerance =
          (.error (.stargateAPIError "No quotes available for this transfer"),
           [.getQuotesCall qp])) ∧
    (∀ (r : RouteData) (rs : List RouteData) (l : List Step),
      qd.quotes = some (r :: rs) → r.steps = some l →
      ∃ qp : QuoteParams,
        transfer wallet_address get_quotes oracle src_token dst_token src_chain_key
            dst_chain_key amount src_address dst_address slippage_tolerance =
          ((execute_route oracle r).1,
           .getQuotesCall qp :: (execute_route oracle r).2)) := by
  constructor
  · intro hq
    refine ⟨transferQuoteParams wallet_address src_token dst_token src_chain_key
      dst_chain_key amount src_address dst_address slippage_tolerance, ?_⟩
    unfold transfer transferQuoteParams
    dsimp only
    simp only [hgq]
    rcases hq with h | h <;> simp only [h]
  · intro r rs l hq hsl
    refine ⟨transferQuoteParams wallet_address src_token dst_token src_chain_key
      dst_chain_key amount src_address dst_address slippage_tolerance, ?_⟩
    unfold transfer transferQuoteParams
    dsimp only
    simp only [hgq]
    simp only [hq]
    simp only [hsl]

/-- Witness for C6: the zero-routes clause at a concrete fetcher returning
an empty quotes list. -/
theorem transfer_no_quotes_and_first_route_witness :
    ∃ qp : QuoteParams,
      transfer "0xwallet" sampleQuotesEmpty sampleOracle "0xusdc" "0xusdcpoly"
          "ethereum" "polygon" "1000000" none none (fl (Rat.divInt 1 20)) =
        (.error (.stargateAPIError "No quotes available for this transfer"),
         [.getQuotesCall qp]) :=
  (transfer_no_quotes_and_first_route "0xwallet" sampleQuotesEmpty sampleOracle
    "0xusdc" "0xusdcpoly" "ethereum" "polygon" "1000000" none none
    (fl (Rat.divInt 1 20)) { quotes := some [] } (fun _ => rfl)).1 (Or.inr rfl)

/-- C9: `transfer` replaces any falsy source/destination address — `None` or
the empty string — with the configured wallet address before the quote
request is built. -/
theorem transfer_address_defaulting
    (wallet_address : String) (get_quotes : QuoteParams → Except PyError QuotesData)
    (oracle : ℕ → StepOracle)
    (src_token dst_token src_chain_key dst_chain_key amount : String)
    (src_address dst_address : Option String) (slippage_tolerance : ℚ)
    (hsa : src_address = none ∨ src_address = some "")
    (hda : dst_address = none ∨ dst_address = some "") :
    ∃ qp : QuoteParams,
      (transfer wallet_address get_quotes oracle src_token dst_token src_chain_key
          dst_chain_key amount src_address dst_address slippage_tolerance).2.head? =
        some (.getQuotesCall qp) ∧
      qp.src_address = wallet_address ∧ qp.dst_address = wallet_address := by
  refine ⟨transferQuoteParams wallet_address src_token dst_token src_chain_key
    dst_chain_key amount src_address dst_address slippage_tolerance,
    transfer_trace_head wallet_address get_quotes oracle src_token dst_token
      src_chain_key dst_chain_key amount src_address dst_address slippage_tolerance,
    ?_, ?_⟩
  · rcases hsa with h | h <;> subst h <;> rfl
  · rcases hda with h | h <;> subst h <;> rfl

/-- Witness for C9: empty-string source address and omitted destination
address both default to the wallet address. -/
theorem transfer_address_defaulting_witness :
    ∃ qp : QuoteParams,
      (transfer "0xwallet" sampleQuotesEmpty sampleOracle "0xusdc" "0xusdcpoly"
          "ethereum" "polygon" "1000000" (some "") none (fl (Rat.divInt 1 20))).2.head? =
        some (.getQuotesCall qp) ∧
      qp.src_address = "0xwallet" ∧ qp.dst_address = "0xwallet" :=
  transfer_address_defaulting "0xwallet" sampleQuotesEmpty sampleOracle "0xusdc"
    "0xusdcpoly" "ethereum" "polygon" "1000000" (some "") none (fl (Rat.divInt 1 20))
    (Or.inr rfl) (Or.inl rfl)

/-- C10: when the quote fetch yields a non-empty quotes list whose first
route has no `steps` key at all, `transfer` raises the raw `KeyError`
`'steps'` — a Python built-in outside the SDK's three-error taxonomy — while
reporting the selected route, before `execute_route` is ever called: the
trace stops at the quote call, with no step submission, so `execute_route`'s
own missing-steps transaction error is never reached. -/
theorem transfer_missing_steps_keyerror
    (wallet_address : String) (get_quotes : QuoteParams → Except PyError QuotesData)
    (oracle : ℕ → StepOracle)
    (src_token dst_token src_chain_key dst_chain_key amount : String)
    (src_address dst_address : Option String) (slippage_tolerance : ℚ)
    (qd : QuotesData) (r : RouteData) (rs : List RouteData)
    (hgq : ∀ p, get_quotes p = .ok qd)
    (hq : qd.quotes = some (r :: rs)) (hs : r.steps = none) :
    (∃ qp : QuoteParams,
      transfer wallet_address get_quotes oracle src_token dst_token src_chain_key
          dst_chain_key amount src_address dst_address slippage_tolerance =
        (.error (.keyError "steps"), [.getQuotesCall qp])) ∧
    PyError.isStargateError (.keyError "steps") = false := by
  refine ⟨⟨transferQuoteParams wallet_address src_token dst_token src_chain_key
    dst_chain_key amount src_address dst_address slippage_tolerance, ?_⟩, rfl⟩
  unfold transfer transferQuoteParams
  dsimp only
  simp only [hgq]
  simp only [hq]
  simp only [hs]

/-- Witness for C10 at a concrete fetcher returning one route without a
`steps` key. -/
theorem transfer_missing_steps_keyerror_witness :
    (∃ qp : QuoteParams,
      transfer "0xwallet" sampleQuotesNoSteps sampleOracle "0xusdc" "0xusdcpoly"
          "ethereum" "polygon" "1000000" none none (fl (Rat.divInt 1 20)) =
        (.error (.keyError "steps"), [.getQuotesCall qp])) ∧
    PyError.isStargateError (.keyError "steps") = false :=
  transfer_missing_steps_keyerror "0xwallet" sampleQuotesNoSteps sampleOracle
    "0xusdc" "0xusdcpoly" "ethereum" "polygon" "1000000" none none
    (fl (Rat.divInt 1 20)) { quotes := some [{ steps := none }] } { steps := none } []
    (fun _ => rfl) rfl rfl

/-- C8 (amended): constructing a client with no private-key argument and no
key in the environment fails before any network activity (the check precedes
construction of the Web3 provider and HTTP client), but with Python's
built-in `ValueError` — not the SDK's configuration-error taxonomy entry
`StargateConfigError`, which is defined in `exceptions.py` yet never raised
by the client. -/
theorem init_missing_key_value_error (private_key env : Option String)
    (hp : private_key = none ∨ private_key = some "")
    (he : env = none ∨ env = some "") :
    init_private_key private_key env =
      .error (.valueError
        "Private key must be provided or set in EVM_PRIVATE_KEY environment variable") ∧
    PyError.isConfigError (.valueError
      "Private key must be provided or set in EVM_PRIVATE_KEY environment variable")
      = false := by
  refine ⟨?_, rfl⟩
  rcases hp with h | h <;> subst h <;> rcases he with h | h <;> subst h <;> rfl

/-- Witness for C8 (amended) at the all-absent input. -/
theorem init_missing_key_value_error_witness :
    init_private_key none none =
      .error (.valueError
        "Private key must be provided or set in EVM_PRIVATE_KEY environment variable") ∧
    PyError.isConfigError (.valueError
      "Private key must be provided or set in EVM_PRIVATE_KEY environment variable")
      = false :=
  init_missing_key_value_error none none (Or.inl rfl) (Or.inl rfl)

/-- C8 counterexample: with no key provided anywhere the raised error is the
built-in `ValueError`, which is not the configuration-error taxonomy entry —
the claimed error kind is wrong. -/
theorem init_missing_key_config_counterexample :
    init_private_key none none =
      .error (.valueError
        "Private key must be provided or set in EVM_PRIVATE_KEY environment variable") ∧
    (.error (.stargateConfigError
        "Private key must be provided or set in EVM_PRIVATE_KEY environment variable") :
      Except PyError String) ≠
      .error (.valueError
        "Private key must be provided or set in EVM_PRIVATE_KEY environment variable") :=
  ⟨rfl, by simp⟩

/-- C2 (amended): the minimum destination amount computed by `transfer` is
`str(int(int(amount) * (1 - slippage_tolerance)))` evaluated in binary64
floating-point arithmetic (`dst_amount_min_calc`); it is computed once per
transfer and carried by the single quote request of the trace.  At the
spec's example — amount `"1000000"`, slippage `0.05` — it coincides with the
exact floor, `"950000"`, but not for every valid input (see the
counterexample). -/
theorem transfer_dst_amount_min_float
    (wallet_address : String) (get_quotes : QuoteParams → Except PyError QuotesData)
    (oracle : ℕ → StepOracle)
    (src_token dst_token src_chain_key dst_chain_key amount : String)
    (src_address dst_address : Option String) (slippage_tolerance : ℚ) :
    (∃ qp : QuoteParams,
      (transfer wallet_address get_quotes oracle src_token dst_token src_chain_key
          dst_chain_key amount src_address dst_address slippage_tolerance).2.head? =
        some (.getQuotesCall qp) ∧
      qp.dst_amount_min = dst_amount_min_calc amount slippage_tolerance ∧
      qp.src_amount = amount) ∧
    (transfer wallet_address get_quotes oracle src_token dst_token src_chain_key
        dst_chain_key amount src_address dst_address slippage_tolerance).2.countP
      (fun e => e.isGetQuotesCall) = 1 ∧
    dst_amount_min_calc "1000000" (fl (Rat.divInt 1 20)) = "950000" ∧
    dst_amount_min_spec "1000000" (Rat.divInt 1 20) = "950000" := by
  refine ⟨⟨transferQuoteParams wallet_address src_token dst_token src_chain_key
      dst_chain_key amount src_address dst_address slippage_tolerance,
      transfer_trace_head wallet_address get_quotes oracle src_token dst_token
        src_chain_key dst_chain_key amount src_address dst_address slippage_tolerance,
      rfl, rfl⟩, ?_, by decide, by decide⟩
  unfold transfer
  dsimp only
  split
  · rfl
  · split
    · rfl
    · rfl
    · split
      · rfl
      · rw [List.countP_cons, execute_route_no_quotes_call]
        rfl

/-- C2 counterexample: at amount `"20000000000000004"` with slippage `0.05`
the quote request built by `transfer` carries dst_amount_min
`"19000000000000004"` — binary64 rounding lands on the next representable
value, which is one above the exact floor — while
`floor(amount * (1 - 1/20)) = 19000000000000003`: the claimed exact-floor
identity fails at this valid input. -/
theorem transfer_dst_amount_min_counterexample :
    (transfer "0xwallet" sampleQuotesEmpty sampleOracle "0xusdc" "0xusdcpoly"
        "ethereum" "polygon" "20000000000000004" none none
        (fl (Rat.divInt 1 20))).2.head? =
      some (.getQuotesCall
        { src_token := "0xusdc", dst_token := "0xusdcpoly",
          src_address := "0xwallet", dst_address := "0xwallet",
          src_chain_key := "ethereum", dst_chain_key := "polygon",
          src_amount := "20000000000000004",
          dst_amount_min := "19000000000000004" }) ∧
    dst_amount_min_spec "20000000000000004" (Rat.divInt 1 20) = "19000000000000003" ∧
    ("19000000000000004" : String) ≠ "19000000000000003" :=
  ⟨by decide, by decide, by decide⟩

end StargateBridge
